import Mathlib

/-!
Shallow embedding of `tcod/event.py`: translation of raw SDL event records
into a typed event taxonomy, plus the handler dispatcher.

The native backend (SDL itself and the pixel-to-tile transform
`TCOD_sys_pixel_to_tile`) is external to the module; it is modelled as
parameters: the pixel-to-tile transform as a function on rational
coordinates, the native queue as a list of raw records drained head first,
and the blocking wait as a function from the millisecond timeout and the
queue before the wait to the queue after it.
-/

namespace TcodEvent

/-- SDL event type codes, from the SDL2 headers (external constants exposed
through `tcod.lib`). -/
def SDL_QUIT : Nat := 0x100

def SDL_WINDOWEVENT : Nat := 0x200

def SDL_KEYDOWN : Nat := 0x300

def SDL_KEYUP : Nat := 0x301

def SDL_TEXTINPUT : Nat := 0x303

def SDL_MOUSEMOTION : Nat := 0x400

def SDL_MOUSEBUTTONDOWN : Nat := 0x401

def SDL_MOUSEBUTTONUP : Nat := 0x402

def SDL_MOUSEWHEEL : Nat := 0x403

/-- SDL window event sub-codes, from the SDL2 headers. -/
def SDL_WINDOWEVENT_SHOWN : Nat := 1

def SDL_WINDOWEVENT_HIDDEN : Nat := 2

def SDL_WINDOWEVENT_EXPOSED : Nat := 3

def SDL_WINDOWEVENT_MOVED : Nat := 4

def SDL_WINDOWEVENT_RESIZED : Nat := 5

def SDL_WINDOWEVENT_SIZE_CHANGED : Nat := 6

def SDL_WINDOWEVENT_MINIMIZED : Nat := 7

def SDL_WINDOWEVENT_MAXIMIZED : Nat := 8

def SDL_WINDOWEVENT_RESTORED : Nat := 9

def SDL_WINDOWEVENT_ENTER : Nat := 10

def SDL_WINDOWEVENT_LEAVE : Nat := 11

def SDL_WINDOWEVENT_FOCUS_GAINED : Nat := 12

def SDL_WINDOWEVENT_FOCUS_LOST : Nat := 13

def SDL_WINDOWEVENT_CLOSE : Nat := 14

def SDL_WINDOWEVENT_TAKE_FOCUS : Nat := 15

def SDL_WINDOWEVENT_HIT_TEST : Nat := 16

/-- Embedding of `SDL_Keysym`: the keyboard payload read by
`KeyboardEvent.from_sdl_event` (`keysym.scancode`, `keysym.sym`,
`keysym.mod`). -/
structure SdlKeysym where
  scancode : Nat
  sym : Nat
  mod : Nat
  deriving DecidableEq, Repr

/-- Embedding of `sdl_event.key`: keysym plus the `repeat` counter (a C `Uint8`, read
through Python `bool(...)`). `repeat` is a Lean keyword, hence the trailing
underscore. -/
structure SdlKeyboardEvent where
  keysym : SdlKeysym
  repeat_ : Nat
  deriving DecidableEq, Repr

/-- Embedding of `sdl_event.motion`: mouse motion payload. -/
structure SdlMouseMotionEvent where
  x : Int
  y : Int
  xrel : Int
  yrel : Int
  state : Nat
  deriving DecidableEq, Repr

/-- Embedding of `sdl_event.button`: mouse button payload. -/
structure SdlMouseButtonEvent where
  x : Int
  y : Int
  button : Nat
  deriving DecidableEq, Repr

/-- Embedding of `sdl_event.wheel`: mouse wheel payload. -/
structure SdlMouseWheelEvent where
  x : Int
  y : Int
  direction : Nat
  deriving DecidableEq, Repr

/-- Embedding of `sdl_event.window`: window event payload. -/
structure SdlWindowEvent where
  event : Nat
  data1 : Int
  data2 : Int
  deriving DecidableEq, Repr

/-- A raw `SDL_Event` record. In C this is a union discriminated by `type`;
here every payload arm is present, and each constructor reads only the arm
the real union would hold. `text` stands for the already-decoded UTF-8
buffer of `sdl_event.text.text` (decoding happens in cffi, outside the
module). -/
structure SdlEvent where
  type : Nat
  key : SdlKeyboardEvent
  motion : SdlMouseMotionEvent
  button : SdlMouseButtonEvent
  wheel : SdlMouseWheelEvent
  text : String
  window : SdlWindowEvent
  deriving DecidableEq, Repr

/-- Python `int(...)` on a real number: truncation toward zero. -/
def truncR (q : Rat) : Int :=
  if 0 ≤ q then q.floor else -(Rat.floor (-q))

/-- Python `str.upper()`, character-wise (all tags here are ASCII, where
Python and `Char.toUpper` agree). -/
def pyUpper (s : String) : String :=
  ⟨s.data.map Char.toUpper⟩

/-- Python `str.lower()`, character-wise (all tags here are ASCII, where
Python and `Char.toLower` agree). -/
def pyLower (s : String) : String :=
  ⟨s.data.map Char.toLower⟩

/-- The pixel-to-tile coordinate transform `_pixel_to_tile`, an external
collaborator (`TCOD_sys_pixel_to_tile`): a pure function of two
coordinates returning two coordinates. -/
def PixelToTile : Type := Rat → Rat → Rat × Rat

/-- Embedding of `_describe_bitmask(bits, table, default)`: collects the labels of table
entries whose bit intersects `bits`, in table iteration order, then joins
them with `"|"`, or returns `default` when none matched. The Python dict
iterates in insertion order, so the table is a list. -/
def _describe_bitmask (bits : Nat) (table : List (Nat × String))
    (default : String := "0") : String :=
  let result := table.foldl
    (fun acc p => if p.1 &&& bits ≠ 0 then acc ++ [p.2] else acc) []
  if result = [] then default else String.intercalate "|" result

/-- The typed event taxonomy: one variant per Python event class that
`from_sdl_event` can produce. Every variant carries the `sdl_event`
attribute set by the base class (`None` until `from_sdl_event` assigns the
raw record). -/
inductive Event where
  | quit (sdl_event : Option SdlEvent)
  | keydown (scancode : Nat) (sym : Nat) (mod : Nat) (repeat_ : Bool)
      (sdl_event : Option SdlEvent)
  | keyup (scancode : Nat) (sym : Nat) (mod : Nat) (repeat_ : Bool)
      (sdl_event : Option SdlEvent)
  | mousemotion (pixel : Int × Int) (pixel_motion : Int × Int)
      (tile : Int × Int) (tile_motion : Int × Int) (state : Nat)
      (sdl_event : Option SdlEvent)
  | mousebuttondown (pixel : Int × Int) (tile : Int × Int) (button : Nat)
      (sdl_event : Option SdlEvent)
  | mousebuttonup (pixel : Int × Int) (tile : Int × Int) (button : Nat)
      (sdl_event : Option SdlEvent)
  | mousewheel (x : Int) (y : Int) (flipped : Bool)
      (sdl_event : Option SdlEvent)
  | textinput (text : String) (sdl_event : Option SdlEvent)
  | windowevent (type : String) (x : Int) (y : Int)
      (sdl_event : Option SdlEvent)
  | undefined (sdl_event : Option SdlEvent)
  deriving DecidableEq, Repr

namespace Event

/-- Python `self.__class__.__name__`: the class of the instance. -/
def kind : Event → String
  | .quit _ => "Quit"
  | .keydown _ _ _ _ _ => "KeyDown"
  | .keyup _ _ _ _ _ => "KeyUp"
  | .mousemotion _ _ _ _ _ _ => "MouseMotion"
  | .mousebuttondown _ _ _ _ => "MouseButtonDown"
  | .mousebuttonup _ _ _ _ => "MouseButtonUp"
  | .mousewheel _ _ _ _ => "MouseWheel"
  | .textinput _ _ => "TextInput"
  | .windowevent _ _ _ _ => "WindowEvent"
  | .undefined _ => "Undefined"

/-- Attribute `self.type`: `Event.__init__` defaults it to the upper-cased class
name; `WindowEvent` passes the looked-up sub-kind string instead, and
`Undefined` passes the empty string. -/
def type : Event → String
  | .windowevent t _ _ _ => t
  | .undefined _ => ""
  | e => pyUpper e.kind

/-- The `sdl_event` attribute. -/
def sdl_event : Event → Option SdlEvent
  | .quit s => s
  | .keydown _ _ _ _ s => s
  | .keyup _ _ _ _ s => s
  | .mousemotion _ _ _ _ _ s => s
  | .mousebuttondown _ _ _ s => s
  | .mousebuttonup _ _ _ s => s
  | .mousewheel _ _ _ s => s
  | .textinput _ s => s
  | .windowevent _ _ _ s => s
  | .undefined s => s

/-- The `scancode` attribute (keyboard events only). -/
def scancode : Event → Option Nat
  | .keydown sc _ _ _ _ => some sc
  | .keyup sc _ _ _ _ => some sc
  | _ => none

/-- The `sym` attribute (keyboard events only). -/
def sym : Event → Option Nat
  | .keydown _ sy _ _ _ => some sy
  | .keyup _ sy _ _ _ => some sy
  | _ => none

/-- The `mod` attribute (keyboard events only). -/
def mod : Event → Option Nat
  | .keydown _ _ m _ _ => some m
  | .keyup _ _ m _ _ => some m
  | _ => none

/-- The `repeat` attribute (keyboard events only). -/
def repeat_ : Event → Option Bool
  | .keydown _ _ _ r _ => some r
  | .keyup _ _ _ r _ => some r
  | _ => none

/-- The `tile` attribute (mouse events only). -/
def tile : Event → Option (Int × Int)
  | .mousemotion _ _ t _ _ _ => some t
  | .mousebuttondown _ t _ _ => some t
  | .mousebuttonup _ t _ _ => some t
  | _ => none

/-- The `tile_motion` attribute (`MouseMotion` only). -/
def tile_motion : Event → Option (Int × Int)
  | .mousemotion _ _ _ tm _ _ => some tm
  | _ => none

end Event

/-- Embedding of `Quit.from_sdl_event`: bare instance, keeps the raw record. -/
def Quit.from_sdl_event (e : SdlEvent) : Event :=
  .quit (some e)

/-- Embedding of `KeyboardEvent.from_sdl_event`: a classmethod building `cls(...)` from
`keysym.scancode`, `keysym.sym`, `keysym.mod` and `bool(key.repeat)`; `cls`
is `KeyDown` or `KeyUp`. -/
def KeyboardEvent.from_sdl_event
    (cls : Nat → Nat → Nat → Bool → Option SdlEvent → Event)
    (e : SdlEvent) : Event :=
  cls e.key.keysym.scancode e.key.keysym.sym e.key.keysym.mod
    (decide (e.key.repeat_ ≠ 0)) (some e)

/-- Embedding of `KeyDown.from_sdl_event`. -/
def KeyDown.from_sdl_event (e : SdlEvent) : Event :=
  KeyboardEvent.from_sdl_event .keydown e

/-- Embedding of `KeyUp.from_sdl_event`. -/
def KeyUp.from_sdl_event (e : SdlEvent) : Event :=
  KeyboardEvent.from_sdl_event .keyup e

/-- Embedding of `MouseMotion.from_sdl_event`: pixel and pixel delta straight from the
record; tile as the `int(...)` truncation of the transform of the pixel
position; tile delta as tile minus the truncated transform of the
pre-motion pixel position. -/
def MouseMotion.from_sdl_event (p2t : PixelToTile) (e : SdlEvent) : Event :=
  let motion := e.motion
  let pixel : Int × Int := (motion.x, motion.y)
  let pixel_motion : Int × Int := (motion.xrel, motion.yrel)
  let subtile := p2t (pixel.1 : Rat) (pixel.2 : Rat)
  let tile : Int × Int := (truncR subtile.1, truncR subtile.2)
  let prev_pixel : Int × Int :=
    (pixel.1 - pixel_motion.1, pixel.2 - pixel_motion.2)
  let prev_subtile := p2t (prev_pixel.1 : Rat) (prev_pixel.2 : Rat)
  let prev_tile : Int × Int := (truncR prev_subtile.1, truncR prev_subtile.2)
  let tile_motion : Int × Int := (tile.1 - prev_tile.1, tile.2 - prev_tile.2)
  .mousemotion pixel pixel_motion tile tile_motion motion.state (some e)

/-- Embedding of `MouseButtonEvent.from_sdl_event`: a classmethod building `cls(...)`;
`cls` is `MouseButtonDown` or `MouseButtonUp`. -/
def MouseButtonEvent.from_sdl_event
    (cls : Int × Int → Int × Int → Nat → Option SdlEvent → Event)
    (p2t : PixelToTile) (e : SdlEvent) : Event :=
  let button := e.button
  let pixel : Int × Int := (button.x, button.y)
  let subtile := p2t (pixel.1 : Rat) (pixel.2 : Rat)
  let tile : Int × Int := (truncR subtile.1, truncR subtile.2)
  cls pixel tile button.button (some e)

/-- Embedding of `MouseButtonDown.from_sdl_event`. -/
def MouseButtonDown.from_sdl_event (p2t : PixelToTile) (e : SdlEvent) :
    Event :=
  MouseButtonEvent.from_sdl_event .mousebuttondown p2t e

/-- Embedding of `MouseButtonUp.from_sdl_event`. -/
def MouseButtonUp.from_sdl_event (p2t : PixelToTile) (e : SdlEvent) :
    Event :=
  MouseButtonEvent.from_sdl_event .mousebuttonup p2t e

/-- Embedding of `MouseWheel.from_sdl_event`. -/
def MouseWheel.from_sdl_event (e : SdlEvent) : Event :=
  .mousewheel e.wheel.x e.wheel.y (decide (e.wheel.direction ≠ 0)) (some e)

/-- Embedding of `TextInput.from_sdl_event`: the cffi string decoding is external; the
record carries the decoded text. -/
def TextInput.from_sdl_event (e : SdlEvent) : Event :=
  .textinput e.text (some e)

/-- Embedding of `Undefined.from_sdl_event`. -/
def Undefined.from_sdl_event (e : SdlEvent) : Event :=
  .undefined (some e)

/-- Embedding of `WindowEvent.__WINDOW_TYPES`: the fixed table from native window-event
sub-codes to sub-kind names, in source order. -/
def WindowEvent.WINDOW_TYPES : List (Nat × String) :=
  [(SDL_WINDOWEVENT_SHOWN, "WindowShown"),
   (SDL_WINDOWEVENT_HIDDEN, "WindowHidden"),
   (SDL_WINDOWEVENT_EXPOSED, "WindowExposed"),
   (SDL_WINDOWEVENT_MOVED, "WindowMoved"),
   (SDL_WINDOWEVENT_RESIZED, "WindowResized"),
   (SDL_WINDOWEVENT_SIZE_CHANGED, "WindowSizeChanged"),
   (SDL_WINDOWEVENT_MINIMIZED, "WindowMinimized"),
   (SDL_WINDOWEVENT_MAXIMIZED, "WindowMaximized"),
   (SDL_WINDOWEVENT_RESTORED, "WindowRestored"),
   (SDL_WINDOWEVENT_ENTER, "WindowEnter"),
   (SDL_WINDOWEVENT_LEAVE, "WindowLeave"),
   (SDL_WINDOWEVENT_FOCUS_GAINED, "WindowFocusGained"),
   (SDL_WINDOWEVENT_FOCUS_LOST, "WindowFocusLost"),
   (SDL_WINDOWEVENT_CLOSE, "WindowClose"),
   (SDL_WINDOWEVENT_TAKE_FOCUS, "WindowTakeFocus"),
   (SDL_WINDOWEVENT_HIT_TEST, "WindowHitTest")]

/-- Embedding of `WindowEvent.from_sdl_event`: sub-code not in `__WINDOW_TYPES` falls
back to `Undefined.from_sdl_event`; otherwise the looked-up sub-kind name
becomes the type tag and `data1`/`data2` become `x`/`y`. -/
def WindowEvent.from_sdl_event (e : SdlEvent) : Event :=
  match List.lookup e.window.event WindowEvent.WINDOW_TYPES with
  | none => Undefined.from_sdl_event e
  | some t => .windowevent t e.window.data1 e.window.data2 (some e)

/-- Embedding of `_SDL_TO_CLASS_TABLE`: native type code to the class used to build the
event. The table value is the class's `from_sdl_event` bound to the
external transform where the class needs it. -/
def _SDL_TO_CLASS_TABLE (p2t : PixelToTile) :
    List (Nat × (SdlEvent → Event)) :=
  [(SDL_QUIT, Quit.from_sdl_event),
   (SDL_KEYDOWN, KeyDown.from_sdl_event),
   (SDL_KEYUP, KeyUp.from_sdl_event),
   (SDL_MOUSEMOTION, MouseMotion.from_sdl_event p2t),
   (SDL_MOUSEBUTTONDOWN, MouseButtonDown.from_sdl_event p2t),
   (SDL_MOUSEBUTTONUP, MouseButtonUp.from_sdl_event p2t),
   (SDL_MOUSEWHEEL, MouseWheel.from_sdl_event),
   (SDL_TEXTINPUT, TextInput.from_sdl_event),
   (SDL_WINDOWEVENT, WindowEvent.from_sdl_event)]

/-- The body of `get`'s loop for one polled record: table hit uses the
class's constructor, miss degrades to `Undefined`. -/
def translate (p2t : PixelToTile) (e : SdlEvent) : Event :=
  match List.lookup e.type (_SDL_TO_CLASS_TABLE p2t) with
  | some cls => cls e
  | none => Undefined.from_sdl_event e

/-- Embedding of `get()`: polls records until `SDL_PollEvent` reports an empty queue,
yielding each record translated, in queue order. The queue is the list of
pending records, drained head first. -/
def get (p2t : PixelToTile) : List SdlEvent → List Event
  | [] => []
  | e :: rest => translate p2t e :: get p2t rest

/-- The blocking wait collaborator (`SDL_WaitEventTimeout` /
`SDL_WaitEvent`): from the millisecond timeout (`none` for the indefinite
wait) and the queue before the wait, the queue when the wait returns. -/
def WaitBackend : Type := Option Int → List SdlEvent → List SdlEvent

/-- Embedding of `wait(timeout)`: a non-null timeout in seconds is converted to whole
milliseconds with `int(timeout * 1000)` for `SDL_WaitEventTimeout`; a null
timeout calls the indefinite `SDL_WaitEvent`; either way the result is
`get()` on the queue as the wait left it. -/
def wait (p2t : PixelToTile) (w : WaitBackend) (timeout : Option Rat)
    (q : List SdlEvent) : List Event :=
  match timeout with
  | some t => get p2t (w (some (truncR (t * 1000))) q)
  | none => get p2t (w none q)

/-- Embedding of `EventDispatch.dispatch`: when the event's type tag is non-empty
(Python string truthiness), invoke the method named `"ev_" +
event.type.lower()` with the event as sole argument; otherwise do nothing.
The result records the one invocation made: handler name and argument. -/
def EventDispatch.dispatch (e : Event) : Option (String × Event) :=
  if e.type = "" then none
  else some ("ev_" ++ pyLower e.type, e)

/-- Embedding of `EventDispatch.event_get`: dispatch every event of a full drain, in
order. The result is the sequence of `dispatch` outcomes, one per polled
record. -/
def EventDispatch.event_get (p2t : PixelToTile) (q : List SdlEvent) :
    List (Option (String × Event)) :=
  (get p2t q).map EventDispatch.dispatch

/-- The handler methods defined on `EventDispatch`, in source order: one
per non-window kind plus one per window sub-kind, each a default no-op. -/
def EventDispatch.handlers : List String :=
  ["ev_quit", "ev_keydown", "ev_keyup", "ev_mousemotion",
   "ev_mousebuttondown", "ev_mousebuttonup", "ev_mousewheel",
   "ev_textinput", "ev_windowshown", "ev_windowhidden",
   "ev_windowexposed", "ev_windowmoved", "ev_windowresized",
   "ev_windowsizechanged", "ev_windowminimized", "ev_windowmaximized",
   "ev_windowrestored", "ev_windowenter", "ev_windowleave",
   "ev_windowfocusgained", "ev_windowfocuslost", "ev_windowclose",
   "ev_windowtakefocus", "ev_windowhittest"]

/-- A raw record with every payload zeroed, used as the base of the
concrete records below. -/
def sdl0 : SdlEvent :=
  { type := 0
    key := { keysym := { scancode := 0, sym := 0, mod := 0 }, repeat_ := 0 }
    motion := { x := 0, y := 0, xrel := 0, yrel := 0, state := 0 }
    button := { x := 0, y := 0, button := 0 }
    wheel := { x := 0, y := 0, direction := 0 }
    text := ""
    window := { event := 0, data1 := 0, data2 := 0 } }

/-- A concrete pixel-to-tile transform for 8-pixel tiles: it maps
`(x, y)` to `(x / 8, y / 8)` (see `p2t8_spec`), written with
`Rat.divInt` so that it evaluates by kernel reduction. -/
def p2t8 : PixelToTile :=
  fun x y => (Rat.divInt x.num (8 * x.den), Rat.divInt y.num (8 * y.den))

/-- A concrete `SDL_QUIT` record. -/
def quit0 : SdlEvent :=
  { sdl0 with type := SDL_QUIT }

/-- A concrete `SDL_KEYDOWN` record. -/
def kd0 : SdlEvent :=
  { sdl0 with
    type := SDL_KEYDOWN
    key := { keysym := { scancode := 4, sym := 97, mod := 3 }
             repeat_ := 1 } }

/-- A concrete `SDL_MOUSEMOTION` record at pixel `(10, 10)` with pixel
delta `(5, 5)`. -/
def mm0 : SdlEvent :=
  { sdl0 with
    type := SDL_MOUSEMOTION
    motion := { x := 10, y := 10, xrel := 5, yrel := 5, state := 1 } }

/-- A concrete `SDL_WINDOWEVENT` record with the resized sub-code and
payload `(640, 480)`. -/
def wr0 : SdlEvent :=
  { sdl0 with
    type := SDL_WINDOWEVENT
    window := { event := SDL_WINDOWEVENT_RESIZED
                data1 := 640
                data2 := 480 } }

/-- A concrete `SDL_WINDOWEVENT` record whose window sub-code 0
(`SDL_WINDOWEVENT_NONE`) has no entry in `__WINDOW_TYPES`. -/
def wu0 : SdlEvent :=
  { sdl0 with
    type := SDL_WINDOWEVENT
    window := { event := 0, data1 := 0, data2 := 0 } }

/-- A concrete record whose type code `0x7000` is outside
`_SDL_TO_CLASS_TABLE`. -/
def unk0 : SdlEvent :=
  { sdl0 with type := 0x7000 }

/-- Unfolding of the table dispatch in `get`: translation is the first
matching branch of the nine-entry table, and `Undefined` past the end. -/
lemma translate_eq (p2t : PixelToTile) (e : SdlEvent) :
    translate p2t e =
      if e.type = SDL_QUIT then Quit.from_sdl_event e
      else if e.type = SDL_KEYDOWN then KeyDown.from_sdl_event e
      else if e.type = SDL_KEYUP then KeyUp.from_sdl_event e
      else if e.type = SDL_MOUSEMOTION then MouseMotion.from_sdl_event p2t e
      else if e.type = SDL_MOUSEBUTTONDOWN then
        MouseButtonDown.from_sdl_event p2t e
      else if e.type = SDL_MOUSEBUTTONUP then
        MouseButtonUp.from_sdl_event p2t e
      else if e.type = SDL_MOUSEWHEEL then MouseWheel.from_sdl_event e
      else if e.type = SDL_TEXTINPUT then TextInput.from_sdl_event e
      else if e.type = SDL_WINDOWEVENT then WindowEvent.from_sdl_event e
      else Undefined.from_sdl_event e := by
  by_cases h1 : e.type = SDL_QUIT
  · simp only [translate]; rw [h1]; rfl
  by_cases h2 : e.type = SDL_KEYDOWN
  · simp only [translate]; rw [h2]; rfl
  by_cases h3 : e.type = SDL_KEYUP
  · simp only [translate]; rw [h3]; rfl
  by_cases h4 : e.type = SDL_MOUSEMOTION
  · simp only [translate]; rw [h4]; rfl
  by_cases h5 : e.type = SDL_MOUSEBUTTONDOWN
  · simp only [translate]; rw [h5]; rfl
  by_cases h6 : e.type = SDL_MOUSEBUTTONUP
  · simp only [translate]; rw [h6]; rfl
  by_cases h7 : e.type = SDL_MOUSEWHEEL
  · simp only [translate]; rw [h7]; rfl
  by_cases h8 : e.type = SDL_TEXTINPUT
  · simp only [translate]; rw [h8]; rfl
  by_cases h9 : e.type = SDL_WINDOWEVENT
  · simp only [translate]; rw [h9]; rfl
  have e1 : (e.type == SDL_QUIT) = false := beq_eq_false_iff_ne.mpr h1
  have e2 : (e.type == SDL_KEYDOWN) = false := beq_eq_false_iff_ne.mpr h2
  have e3 : (e.type == SDL_KEYUP) = false := beq_eq_false_iff_ne.mpr h3
  have e4 : (e.type == SDL_MOUSEMOTION) = false := beq_eq_false_iff_ne.mpr h4
  have e5 : (e.type == SDL_MOUSEBUTTONDOWN) = false :=
    beq_eq_false_iff_ne.mpr h5
  have e6 : (e.type == SDL_MOUSEBUTTONUP) = false :=
    beq_eq_false_iff_ne.mpr h6
  have e7 : (e.type == SDL_MOUSEWHEEL) = false := beq_eq_false_iff_ne.mpr h7
  have e8 : (e.type == SDL_TEXTINPUT) = false := beq_eq_false_iff_ne.mpr h8
  have e9 : (e.type == SDL_WINDOWEVENT) = false := beq_eq_false_iff_ne.mpr h9
  simp only [translate, _SDL_TO_CLASS_TABLE, List.lookup, e1, e2, e3, e4, e5,
    e6, e7, e8, e9, if_neg h1, if_neg h2, if_neg h3, if_neg h4, if_neg h5,
    if_neg h6, if_neg h7, if_neg h8, if_neg h9]

/-- Every construction path of `translate` stores the raw record in the
event's `sdl_event` attribute. -/
lemma sdl_event_translate (p2t : PixelToTile) (e : SdlEvent) :
    (translate p2t e).sdl_event = some e := by
  rw [translate_eq]
  split_ifs <;>
    first
      | rfl
      | (simp only [WindowEvent.from_sdl_event]; split <;> rfl)

/-- The drain of `get` translates the pending records one for one, in
queue order. -/
lemma get_eq_map (p2t : PixelToTile) (q : List SdlEvent) :
    get p2t q = q.map (translate p2t) := by
  induction q with
  | nil => rfl
  | cons e rest ih => simp [get, ih]

/-- The label-collecting loop of `_describe_bitmask` appends exactly the
labels of the matching entries, in table order. -/
lemma describe_foldl (bits : Nat) (table : List (Nat × String))
    (acc : List String) :
    table.foldl
        (fun acc p => if p.1 &&& bits ≠ 0 then acc ++ [p.2] else acc) acc
      = acc
        ++ ((table.filter fun p => decide (p.1 &&& bits ≠ 0)).map Prod.snd) := by
  induction table generalizing acc with
  | nil => simp
  | cons p rest ih =>
    simp only [List.foldl_cons, List.filter_cons]
    by_cases h : p.1 &&& bits ≠ 0
    · rw [if_pos h, ih]
      simp [h, List.append_assoc]
    · rw [if_neg h, ih]
      simp [h]

/-- Closed form of `_describe_bitmask`: the default on no matching entry,
otherwise the pipe-join of the matching labels in table order. -/
lemma describe_eq (bits : Nat) (table : List (Nat × String)) (d : String) :
    _describe_bitmask bits table d =
      if ((table.filter fun p => decide (p.1 &&& bits ≠ 0)).map Prod.snd)
          = [] then d
      else
        String.intercalate "|"
          ((table.filter fun p => decide (p.1 &&& bits ≠ 0)).map Prod.snd) := by
  simp only [_describe_bitmask, describe_foldl, List.nil_append]

/-- Every sub-kind name in `__WINDOW_TYPES`, lower-cased and prefixed with
`ev_`, names a handler method of `EventDispatch`. -/
lemma lookup_WINDOW_TYPES_mem (c : Nat) (t : String)
    (h : List.lookup c WindowEvent.WINDOW_TYPES = some t) :
    ("ev_" ++ pyLower t) ∈ EventDispatch.handlers := by
  simp only [WindowEvent.WINDOW_TYPES, List.lookup] at h
  repeat' split at h
  all_goals try (cases h)
  all_goals decide

/-- The concrete transform `p2t8` is the map `(x, y) ↦ (x / 8, y / 8)`. -/
lemma p2t8_spec (x y : Rat) : p2t8 x y = (x / 8, y / 8) := by
  have key : ∀ z : Rat, Rat.divInt z.num (8 * z.den) = z / 8 := by
    intro z
    rw [Rat.divInt_eq_div]
    push_cast
    rw [mul_comm, ← div_div, Rat.num_div_den]
  simp only [p2t8, key]

/-- The whole-millisecond conversion of a zero-second timeout is zero. -/
lemma truncR_zero_mul : truncR ((0 : Rat) * 1000) = 0 := by
  rw [zero_mul]; decide

/-- Claim C1, counterexample: the raw record `wu0` has kind code
`SDL_WINDOWEVENT`, one of the nine mapped codes, yet the translation step
constructs an `Undefined` instance, not a `WindowEvent` instance, because
the record's window sub-code 0 has no `__WINDOW_TYPES` entry. -/
theorem claim_C1_counterexample :
    wu0.type ∈ ((_SDL_TO_CLASS_TABLE p2t8).map Prod.fst) ∧
    (translate p2t8 wu0).kind ≠ "WindowEvent" ∧
    (translate p2t8 wu0).kind = "Undefined" :=
  ⟨by decide, by decide, by decide⟩

/-- Claim C1 (amended): for a record whose kind code is one of the nine
mapped codes, translation constructs that kind's variant — except that an
`SDL_WINDOWEVENT` record whose window sub-code has no `__WINDOW_TYPES`
entry degrades to `Undefined`; for a record whose kind code is not in the
table, translation returns `Undefined` holding the record, and it is total
(never fails or raises). -/
theorem claim_C1 (p2t : PixelToTile) (e : SdlEvent) :
    (e.type = SDL_QUIT → (translate p2t e).kind = "Quit") ∧
    (e.type = SDL_KEYDOWN → (translate p2t e).kind = "KeyDown") ∧
    (e.type = SDL_KEYUP → (translate p2t e).kind = "KeyUp") ∧
    (e.type = SDL_MOUSEMOTION → (translate p2t e).kind = "MouseMotion") ∧
    (e.type = SDL_MOUSEBUTTONDOWN →
      (translate p2t e).kind = "MouseButtonDown") ∧
    (e.type = SDL_MOUSEBUTTONUP →
      (translate p2t e).kind = "MouseButtonUp") ∧
    (e.type = SDL_MOUSEWHEEL → (translate p2t e).kind = "MouseWheel") ∧
    (e.type = SDL_TEXTINPUT → (translate p2t e).kind = "TextInput") ∧
    (e.type = SDL_WINDOWEVENT →
      (∀ t, List.lookup e.window.event WindowEvent.WINDOW_TYPES = some t →
        (translate p2t e).kind = "WindowEvent") ∧
      (List.lookup e.window.event WindowEvent.WINDOW_TYPES = none →
        (translate p2t e).kind = "Undefined")) ∧
    (e.type ∉ ((_SDL_TO_CLASS_TABLE p2t).map Prod.fst) →
      translate p2t e = Event.undefined (some e)) := by
  refine ⟨?_, ?_, ?_, ?_, ?_, ?_, ?_, ?_, ?_, ?_⟩
  · intro h; rw [translate_eq, h]; rfl
  · intro h; rw [translate_eq, h]; rfl
  · intro h; rw [translate_eq, h]; rfl
  · intro h; rw [translate_eq, h]; rfl
  · intro h; rw [translate_eq, h]; rfl
  · intro h; rw [translate_eq, h]; rfl
  · intro h; rw [translate_eq, h]; rfl
  · intro h; rw [translate_eq, h]; rfl
  · intro h
    constructor
    · intro t ht
      rw [translate_eq, h]
      show (WindowEvent.from_sdl_event e).kind = "WindowEvent"
      simp only [WindowEvent.from_sdl_event, ht]
      rfl
    · intro hn
      rw [translate_eq, h]
      show (WindowEvent.from_sdl_event e).kind = "Undefined"
      simp only [WindowEvent.from_sdl_event, hn]
      rfl
  · intro hm
    simp only [_SDL_TO_CLASS_TABLE, List.map_cons, List.map_nil,
      List.mem_cons, List.not_mem_nil, or_false, not_or] at hm
    obtain ⟨h1, h2, h3, h4, h5, h6, h7, h8, h9⟩ := hm
    rw [translate_eq, if_neg h1, if_neg h2, if_neg h3, if_neg h4, if_neg h5,
      if_neg h6, if_neg h7, if_neg h8, if_neg h9]
    rfl

/-- Claim C1, witness: a quit record yields the `Quit` variant, a resized
window record yields the `WindowEvent` variant, and an unmapped code
yields `Undefined`. -/
theorem claim_C1_witness :
    (translate p2t8 quit0).kind = "Quit" ∧
    (translate p2t8 wr0).kind = "WindowEvent" ∧
    translate p2t8 unk0 = Event.undefined (some unk0) :=
  ⟨(claim_C1 p2t8 quit0).1 rfl,
   ((claim_C1 p2t8 wr0).2.2.2.2.2.2.2.2.1 rfl).1 "WindowResized"
     (by decide),
   (claim_C1 p2t8 unk0).2.2.2.2.2.2.2.2.2 (by decide)⟩

/-- Claim C2: the dispatcher derives the handler name by lowercasing the
event's type tag prefixed with `ev_` and invokes exactly that one method
with the event as sole argument; a `KEYDOWN` tag invokes exactly
`ev_keydown`, and an empty tag (which is exactly what `Undefined` carries)
invokes nothing. -/
theorem claim_C2 (e : Event) :
    (e.type ≠ "" →
      EventDispatch.dispatch e = some ("ev_" ++ pyLower e.type, e)) ∧
    (e.type = "KEYDOWN" →
      EventDispatch.dispatch e = some ("ev_keydown", e)) ∧
    (e.type = "" → EventDispatch.dispatch e = none) ∧
    (∀ s, (Event.undefined s).type = "") := by
  refine ⟨?_, ?_, ?_, fun _ => rfl⟩
  · intro h
    simp only [EventDispatch.dispatch]
    rw [if_neg h]
  · intro h
    simp only [EventDispatch.dispatch, h]
    rfl
  · intro h
    simp [EventDispatch.dispatch, h]

/-- Claim C2, witness: a concrete key-down event dispatches to
`ev_keydown` alone, and an `Undefined` event dispatches nothing. -/
theorem claim_C2_witness :
    EventDispatch.dispatch (Event.keydown 4 97 0 false none)
      = some ("ev_keydown", Event.keydown 4 97 0 false none) ∧
    EventDispatch.dispatch (Event.undefined none) = none :=
  ⟨(claim_C2 (Event.keydown 4 97 0 false none)).2.1 (by decide),
   (claim_C2 (Event.undefined none)).2.2.1 (by decide)⟩

/-- Claim C3: `_describe_bitmask` returns the default when no table bit
intersects the mask (in particular when the mask is 0), exactly the one
matching label when a single table entry matches, and the pipe-join of all
matching labels in table iteration order otherwise. -/
theorem claim_C3 (bits : Nat) (table : List (Nat × String)) (d : String) :
    ((∀ p ∈ table, p.1 &&& bits = 0) → _describe_bitmask bits table d = d) ∧
    (∀ b n, (table.filter fun p => decide (p.1 &&& bits ≠ 0)) = [(b, n)] →
      _describe_bitmask bits table d = n) ∧
    ((table.filter fun p => decide (p.1 &&& bits ≠ 0)) ≠ [] →
      _describe_bitmask bits table d =
        String.intercalate "|"
          ((table.filter fun p => decide (p.1 &&& bits ≠ 0)).map
            Prod.snd)) := by
  refine ⟨?_, ?_, ?_⟩
  · intro h
    have hf : (table.filter fun p => decide (p.1 &&& bits ≠ 0)) = [] := by
      rw [List.filter_eq_nil]
      intro p hp
      simp [h p hp]
    rw [describe_eq, hf]
    simp
  · intro b n hf
    rw [describe_eq, hf]
    simp [String.intercalate, String.intercalate.go]
  · intro hne
    rw [describe_eq]
    rw [if_neg (fun hmap => hne (List.map_eq_nil.mp hmap))]

/-- Claim C3, witness: with the table `[(1, A), (2, B), (4, C)]`, mask 0
gives the default, mask 2 gives exactly `B`, and mask 5 gives `A|C`. -/
theorem claim_C3_witness :
    _describe_bitmask 0 [(1, "A"), (2, "B"), (4, "C")] "0" = "0" ∧
    _describe_bitmask 2 [(1, "A"), (2, "B"), (4, "C")] "0" = "B" ∧
    _describe_bitmask 5 [(1, "A"), (2, "B"), (4, "C")] "0" = "A|C" :=
  ⟨(claim_C3 0 [(1, "A"), (2, "B"), (4, "C")] "0").1 (by decide),
   (claim_C3 2 [(1, "A"), (2, "B"), (4, "C")] "0").2.1 2 "B" (by decide),
   ((claim_C3 5 [(1, "A"), (2, "B"), (4, "C")] "0").2.2
     (by decide)).trans (by decide)⟩

/-- Claim C4: for a mouse-motion record, the event's `tile` is the
truncation of the transform of the pixel position, and `tile_motion` is
`tile` minus the truncation of the transform of the pixel position minus
the pixel delta. -/
theorem claim_C4 (p2t : PixelToTile) (e : SdlEvent)
    (h : e.type = SDL_MOUSEMOTION) :
    (translate p2t e).tile =
      some (truncR (p2t e.motion.x e.motion.y).1,
        truncR (p2t e.motion.x e.motion.y).2) ∧
    (translate p2t e).tile_motion =
      some
        (truncR (p2t e.motion.x e.motion.y).1 -
            truncR
              (p2t ((e.motion.x - e.motion.xrel : Int) : Rat)
                ((e.motion.y - e.motion.yrel : Int) : Rat)).1,
          truncR (p2t e.motion.x e.motion.y).2 -
            truncR
              (p2t ((e.motion.x - e.motion.xrel : Int) : Rat)
                ((e.motion.y - e.motion.yrel : Int) : Rat)).2) := by
  constructor <;> (rw [translate_eq, h]; rfl)

/-- Claim C4, witness: with pixel `(10, 10)`, pixel delta `(5, 5)` and the
transform `p2t8` (which maps `(x, y)` to `(x / 8, y / 8)`), the tile is
`(1, 1)` and the tile delta is `(1, 1) − (0, 0) = (1, 1)`. -/
theorem claim_C4_witness :
    mm0.type = SDL_MOUSEMOTION ∧
    p2t8 10 10 = ((10 : Rat) / 8, (10 : Rat) / 8) ∧
    (translate p2t8 mm0).tile = some (1, 1) ∧
    (translate p2t8 mm0).tile_motion = some (1, 1) :=
  ⟨rfl, p2t8_spec 10 10,
   ((claim_C4 p2t8 mm0 rfl).1).trans (by decide),
   ((claim_C4 p2t8 mm0 rfl).2).trans (by decide)⟩

/-- Claim C5: for a window-event record, a window sub-code with a
`__WINDOW_TYPES` entry yields a `WindowEvent` whose type tag is the
looked-up sub-kind name and whose x/y carry `data1`/`data2`; a sub-code
with no entry yields `Undefined` retaining the raw record; and the
resized sub-code looks up to `WindowResized`. -/
theorem claim_C5 (p2t : PixelToTile) (e : SdlEvent)
    (h : e.type = SDL_WINDOWEVENT) :
    (∀ t, List.lookup e.window.event WindowEvent.WINDOW_TYPES = some t →
      translate p2t e
        = Event.windowevent t e.window.data1 e.window.data2 (some e)) ∧
    (List.lookup e.window.event WindowEvent.WINDOW_TYPES = none →
      translate p2t e = Event.undefined (some e)) ∧
    List.lookup SDL_WINDOWEVENT_RESIZED WindowEvent.WINDOW_TYPES
      = some "WindowResized" := by
  refine ⟨?_, ?_, by decide⟩
  · intro t ht
    rw [translate_eq, h]
    show WindowEvent.from_sdl_event e = _
    simp only [WindowEvent.from_sdl_event, ht]
  · intro hn
    rw [translate_eq, h]
    show WindowEvent.from_sdl_event e = _
    simp only [WindowEvent.from_sdl_event, hn]
    rfl

/-- Claim C5, witness: the concrete resized record maps to the
`WindowResized` tag with payload `(640, 480)`, and the record with the
unmapped sub-code 0 degrades to `Undefined`. -/
theorem claim_C5_witness :
    translate p2t8 wr0
      = Event.windowevent "WindowResized" 640 480 (some wr0) ∧
    translate p2t8 wu0 = Event.undefined (some wu0) :=
  ⟨(claim_C5 p2t8 wr0 rfl).1 "WindowResized" (by decide),
   (claim_C5 p2t8 wu0 rfl).2.1 (by decide)⟩

/-- Claim C6: a full drain translates the queued records one for one in
queue (FIFO) order with no reordering and no filtering, and a full
dispatch cycle performs one dispatch per record in that same order. -/
theorem claim_C6 (p2t : PixelToTile) (q : List SdlEvent) :
    get p2t q = q.map (translate p2t) ∧
    (get p2t q).length = q.length ∧
    EventDispatch.event_get p2t q
      = q.map (fun r => EventDispatch.dispatch (translate p2t r)) := by
  refine ⟨get_eq_map p2t q, ?_, ?_⟩
  · rw [get_eq_map]; simp
  · simp only [EventDispatch.event_get]
    rw [get_eq_map, List.map_map]
    rfl

/-- Claim C7: for a key-down or key-up record, the event's scancode,
symbolic key code, modifier bitmask and repeat flag come verbatim from the
raw record's `keysym` fields and `repeat` counter. -/
theorem claim_C7 (p2t : PixelToTile) (e : SdlEvent)
    (h : e.type = SDL_KEYDOWN ∨ e.type = SDL_KEYUP) :
    (translate p2t e).scancode = some e.key.keysym.scancode ∧
    (translate p2t e).sym = some e.key.keysym.sym ∧
    (translate p2t e).mod = some e.key.keysym.mod ∧
    (translate p2t e).repeat_ = some (decide (e.key.repeat_ ≠ 0)) := by
  rcases h with h | h <;>
    exact ⟨by rw [translate_eq, h]; rfl, by rw [translate_eq, h]; rfl,
      by rw [translate_eq, h]; rfl, by rw [translate_eq, h]; rfl⟩

/-- Claim C7, witness: the concrete key-down record with scancode 4,
sym 97, mod 3 and repeat counter 1 yields exactly those attribute
values. -/
theorem claim_C7_witness :
    kd0.type = SDL_KEYDOWN ∧
    (translate p2t8 kd0).scancode = some 4 ∧
    (translate p2t8 kd0).sym = some 97 ∧
    (translate p2t8 kd0).mod = some 3 ∧
    (translate p2t8 kd0).repeat_ = some true :=
  ⟨rfl,
   ((claim_C7 p2t8 kd0 (Or.inl rfl)).1).trans (by decide),
   ((claim_C7 p2t8 kd0 (Or.inl rfl)).2.1).trans (by decide),
   ((claim_C7 p2t8 kd0 (Or.inl rfl)).2.2.1).trans (by decide),
   ((claim_C7 p2t8 kd0 (Or.inl rfl)).2.2.2).trans (by decide)⟩

/-- Claim C8: `wait` with a timeout converts it to whole milliseconds via
`int(timeout * 1000)` and then performs exactly the drain of `get` on the
queue the backend wait leaves, yielding the same translated sequence; with
a null timeout it calls the indefinite backend wait and then drains the
same way; with timeout 0 and a backend wait that leaves the queue empty,
the result is the empty sequence. -/
theorem claim_C8 (p2t : PixelToTile) (w : WaitBackend) (t : Rat)
    (q : List SdlEvent) :
    wait p2t w (some t) q
      = (w (some (truncR (t * 1000))) q).map (translate p2t) ∧
    wait p2t w none q = (w none q).map (translate p2t) ∧
    (w (some 0) q = [] → wait p2t w (some 0) q = []) := by
  refine ⟨?_, ?_, ?_⟩
  · simp only [wait]
    exact get_eq_map p2t _
  · simp only [wait]
    exact get_eq_map p2t _
  · intro h
    simp only [wait, truncR_zero_mul, h]
    rfl

/-- Claim C8, witness: with a backend wait that returns the queue
unchanged and an empty queue, timeout 0 yields the empty sequence. -/
theorem claim_C8_witness :
    wait p2t8 (fun _ l => l) (some 0) [] = [] :=
  (claim_C8 p2t8 (fun _ l => l) 0 []).2.2 rfl

/-- Claim C9: every event built by the translation step stores the
originating raw record in its `sdl_event` attribute, and the `Undefined`
variant carries the empty type tag and no semantic fields. -/
theorem claim_C9 (p2t : PixelToTile) (e : SdlEvent) :
    (translate p2t e).sdl_event = some e ∧
    (∀ s, (Event.undefined s).type = "") :=
  ⟨sdl_event_translate p2t e, fun _ => rfl⟩

/-- Claim C10: every event a drain can yield has either the empty type tag
(dispatch is then a no-op) or a type tag whose lower-cased `ev_`-prefixed
form names one of the handler methods defined on `EventDispatch`, so
dispatch never needs a handler that does not exist. -/
theorem claim_C10 (p2t : PixelToTile) (q : List SdlEvent) (e : Event)
    (h : e ∈ get p2t q) :
    e.type = "" ∨ ("ev_" ++ pyLower e.type) ∈ EventDispatch.handlers := by
  rw [get_eq_map] at h
  obtain ⟨r, -, rfl⟩ := List.mem_map.mp h
  rw [translate_eq]
  split_ifs
  · right; show "ev_quit" ∈ EventDispatch.handlers; decide
  · right; show "ev_keydown" ∈ EventDispatch.handlers; decide
  · right; show "ev_keyup" ∈ EventDispatch.handlers; decide
  · right; show "ev_mousemotion" ∈ EventDispatch.handlers; decide
  · right; show "ev_mousebuttondown" ∈ EventDispatch.handlers; decide
  · right; show "ev_mousebuttonup" ∈ EventDispatch.handlers; decide
  · right; show "ev_mousewheel" ∈ EventDispatch.handlers; decide
  · right; show "ev_textinput" ∈ EventDispatch.handlers; decide
  · rcases hw : List.lookup r.window.event WindowEvent.WINDOW_TYPES
      with _ | t
    · left
      show (WindowEvent.from_sdl_event r).type = ""
      simp only [WindowEvent.from_sdl_event, hw]
      rfl
    · right
      show ("ev_" ++ pyLower (WindowEvent.from_sdl_event r).type)
        ∈ EventDispatch.handlers
      simp only [WindowEvent.from_sdl_event, hw]
      exact lookup_WINDOW_TYPES_mem _ _ hw
  · exact Or.inl rfl

/-- Claim C10, witness: the event translated from the concrete key-down
record is yielded by a drain and its tag names the `ev_keydown`
handler. -/
theorem claim_C10_witness :
    (translate p2t8 kd0).type = ""
      ∨ ("ev_" ++ pyLower (translate p2t8 kd0).type)
          ∈ EventDispatch.handlers :=
  claim_C10 p2t8 [kd0] (translate p2t8 kd0) (by decide)

end TcodEvent
